import Mathlib

/-!
# rent-web-server: the skipper client assembly and the skipper service host

A shallow embedding of `client/client.go` (functions `New`, `factoryFor`) and of
`cmd/skipper/main.go` (functions `main`, `envString`).

Both files are wiring code over external packages (go-kit `sd`, `sd/consul`, `sd/lb`,
hashicorp `consul/api`, `skipper`, `net/http`, `flag`).  Calls into those packages that
construct an object are recorded, in program order, in a construction trace; the position
of a call in the trace is the identity (`Ref`) of the object it returned.  External
functions that compute a value (`consulapi.NewClient`, `skipper.MakeClientEndpoints`,
the `skipper.Make...Endpoint` constructors) are parameters, collected in `Deps`.
-/

namespace time

/-- Go `time.Nanosecond`: a `time.Duration` counts nanoseconds. -/
def Nanosecond : Nat := 1

/-- Go `time.Microsecond`. -/
def Microsecond : Nat := 1000 * Nanosecond

/-- Go `time.Millisecond`. -/
def Millisecond : Nat := 1000 * Microsecond

end time

namespace client

/-- Identity of an object built during `New`: its position in the construction trace. -/
abbrev Ref := Nat

/-- Go `consulapi.Config`, restricted to the one field `New` sets. -/
structure Config where
  Address : String
  deriving DecidableEq, Repr

/-- Go `io.Closer` values; `factoryFor` only ever returns the nil closer. -/
structure Closer where
  id : Nat
  deriving DecidableEq, Repr

/-- Go result triple `(endpoint.Endpoint, io.Closer, error)` of an `sd.Factory`;
`none` is Go `nil`. -/
structure FactoryResult (Endpoint Error : Type) where
  endpoint : Option Endpoint
  closer : Option Closer
  err : Option Error

/-- Go `sd.Factory`: `func(instance string) (endpoint.Endpoint, io.Closer, error)`. -/
abbrev Factory (Endpoint Error : Type) := String → FactoryResult Endpoint Error

/-- Functions of the packages `consulapi` and `skipper` that `client.go` calls and whose
bodies are outside this repository. -/
structure Deps (ApiClient Service Endpoint Error : Type) where
  NewClient : Config → Except Error ApiClient
  MakeClientEndpoints : String → Except Error Service
  MakePostProfileEndpoint : Service → Endpoint
  MakeGetProfileEndpoint : Service → Endpoint
  MakePutProfileEndpoint : Service → Endpoint
  MakePatchProfileEndpoint : Service → Endpoint
  MakeDeleteProfileEndpoint : Service → Endpoint
  MakeGetAddressesEndpoint : Service → Endpoint
  MakeGetAddressEndpoint : Service → Endpoint
  MakePostAddressEndpoint : Service → Endpoint
  MakeDeleteAddressEndpoint : Service → Endpoint

/-- One call of `New` into an external package, with the arguments it was given. -/
inductive Call (ApiClient Logger Endpoint Error : Type) where
  /-- Call `consulapi.NewClient(&consulapi.Config{...})`. -/
  | apiNewClient (config : Config)
  /-- Call `consul.NewClient(apiclient)`. -/
  | sdNewClient (apiclient : ApiClient)
  /-- Call `consul.NewInstancer(client, logger, service, tags, passingOnly)`. -/
  | NewInstancer (sdclient : Ref) (logger : Logger) (service : String)
      (tags : List String) (passingOnly : Bool)
  /-- Call `sd.NewEndpointer(src, f, logger)`. -/
  | NewEndpointer (src : Ref) (f : Factory Endpoint Error) (logger : Logger)
  /-- Call `lb.NewRoundRobin(s)`. -/
  | NewRoundRobin (s : Ref)
  /-- Call `lb.Retry(max, timeout, b)`. -/
  | Retry (max : Nat) (timeout : Nat) (b : Ref)

/-- Go `skipper.Endpoints`, with the fields `New` assigns; the zero value has every
field nil. A non-nil field holds the identity of the callable stored in it. -/
structure Endpoints where
  PostProfileEndpoint : Option Ref := none
  GetProfileEndpoint : Option Ref := none
  PutProfileEndpoint : Option Ref := none
  PatchProfileEndpoint : Option Ref := none
  DeleteProfileEndpoint : Option Ref := none
  GetAddressesEndpoint : Option Ref := none
  GetAddressEndpoint : Option Ref := none
  PostAddressEndpoint : Option Ref := none
  DeleteAddressEndpoint : Option Ref := none
  deriving DecidableEq, Repr

section
variable {ApiClient Logger Service Endpoint Error : Type}

/-- Go `factoryFor` (client.go:110-118). -/
def factoryFor (d : Deps ApiClient Service Endpoint Error)
    (makeEndpoint : Service → Endpoint) : Factory Endpoint Error :=
  fun instanceAddr =>
    match d.MakeClientEndpoints instanceAddr with
    | .error err => { endpoint := none, closer := none, err := some err }
    | .ok service => { endpoint := some (makeEndpoint service), closer := none, err := none }

/-- Construction monad: the state is the trace of external calls made so far. -/
abbrev Build (ApiClient Logger Endpoint Error : Type) :=
  StateM (List (Call ApiClient Logger Endpoint Error))

/-- Record one external call; the object it returns is identified by the position of the
call in the trace. -/
def call (c : Call ApiClient Logger Endpoint Error) :
    Build ApiClient Logger Endpoint Error Ref :=
  fun trace => (trace.length, trace ++ [c])

/-- Go `New` (client.go:20-108). -/
def New (d : Deps ApiClient Service Endpoint Error) (consulAddr : String) (logger : Logger) :
    Build ApiClient Logger Endpoint Error (Except Error Endpoints) := do
  let _ ← call (.apiNewClient { Address := consulAddr })
  match d.NewClient { Address := consulAddr } with
  | .error err => return .error err
  | .ok apiclient =>
    let consulService := "skipper"
    let consulTags := ["prod"]
    let passingOnly := true
    let retryMax := 3
    let retryTimeout := 500 * time.Millisecond
    let sdclient ← call (.sdNewClient apiclient)
    let instancer ← call (.NewInstancer sdclient logger consulService consulTags passingOnly)
    let mut endpoints : Endpoints := {}
    do
      let factory := factoryFor d d.MakePostProfileEndpoint
      let endpointer ← call (.NewEndpointer instancer factory logger)
      let balancer ← call (.NewRoundRobin endpointer)
      let retry ← call (.Retry retryMax retryTimeout balancer)
      endpoints := { endpoints with PostProfileEndpoint := some retry }
    do
      let factory := factoryFor d d.MakeGetProfileEndpoint
      let endpointer ← call (.NewEndpointer instancer factory logger)
      let balancer ← call (.NewRoundRobin endpointer)
      let retry ← call (.Retry retryMax retryTimeout balancer)
      endpoints := { endpoints with GetProfileEndpoint := some retry }
    do
      let factory := factoryFor d d.MakePutProfileEndpoint
      let endpointer ← call (.NewEndpointer instancer factory logger)
      let balancer ← call (.NewRoundRobin endpointer)
      let retry ← call (.Retry retryMax retryTimeout balancer)
      endpoints := { endpoints with PutProfileEndpoint := some retry }
    do
      let factory := factoryFor d d.MakePatchProfileEndpoint
      let endpointer ← call (.NewEndpointer instancer factory logger)
      let balancer ← call (.NewRoundRobin endpointer)
      let retry ← call (.Retry retryMax retryTimeout balancer)
      endpoints := { endpoints with PatchProfileEndpoint := some retry }
    do
      let factory := factoryFor d d.MakeDeleteProfileEndpoint
      let endpointer ← call (.NewEndpointer instancer factory logger)
      let balancer ← call (.NewRoundRobin endpointer)
      let retry ← call (.Retry retryMax retryTimeout balancer)
      endpoints := { endpoints with DeleteProfileEndpoint := some retry }
    do
      let factory := factoryFor d d.MakeGetAddressesEndpoint
      let endpointer ← call (.NewEndpointer instancer factory logger)
      let balancer ← call (.NewRoundRobin endpointer)
      let retry ← call (.Retry retryMax retryTimeout balancer)
      endpoints := { endpoints with GetAddressesEndpoint := some retry }
    do
      let factory := factoryFor d d.MakeGetAddressEndpoint
      let endpointer ← call (.NewEndpointer instancer factory logger)
      let balancer ← call (.NewRoundRobin endpointer)
      let retry ← call (.Retry retryMax retryTimeout balancer)
      endpoints := { endpoints with GetAddressEndpoint := some retry }
    do
      let factory := factoryFor d d.MakePostAddressEndpoint
      let endpointer ← call (.NewEndpointer instancer factory logger)
      let balancer ← call (.NewRoundRobin endpointer)
      let retry ← call (.Retry retryMax retryTimeout balancer)
      endpoints := { endpoints with PostAddressEndpoint := some retry }
    do
      let factory := factoryFor d d.MakeDeleteAddressEndpoint
      let endpointer ← call (.NewEndpointer instancer factory logger)
      let balancer ← call (.NewRoundRobin endpointer)
      let retry ← call (.Retry retryMax retryTimeout balancer)
      endpoints := { endpoints with DeleteAddressEndpoint := some retry }
    return .ok endpoints

/-- Result and construction trace of one run of `New` from an empty trace. -/
def runNew (d : Deps ApiClient Service Endpoint Error) (consulAddr : String) (logger : Logger) :
    Except Error Endpoints × List (Call ApiClient Logger Endpoint Error) :=
  (New d consulAddr logger).run []

end

/-! ## Reading the construction trace -/

/-- The nine operations named in `client.go`. -/
inductive Op where
  | PostProfile | GetProfile | PutProfile | PatchProfile | DeleteProfile
  | GetAddresses | GetAddress | PostAddress | DeleteAddress
  deriving DecidableEq, Repr

/-- Every operation, in the order of the wiring blocks of `New`. -/
def Op.all : List Op :=
  [.PostProfile, .GetProfile, .PutProfile, .PatchProfile, .DeleteProfile,
   .GetAddresses, .GetAddress, .PostAddress, .DeleteAddress]

/-- Position of the wiring block of an operation in `New`, counted from 0. -/
def Op.index : Op → Nat
  | .PostProfile => 0
  | .GetProfile => 1
  | .PutProfile => 2
  | .PatchProfile => 3
  | .DeleteProfile => 4
  | .GetAddresses => 5
  | .GetAddress => 6
  | .PostAddress => 7
  | .DeleteAddress => 8

/-- The field of `skipper.Endpoints` named after the operation. -/
def Endpoints.get (e : Endpoints) : Op → Option Ref
  | .PostProfile => e.PostProfileEndpoint
  | .GetProfile => e.GetProfileEndpoint
  | .PutProfile => e.PutProfileEndpoint
  | .PatchProfile => e.PatchProfileEndpoint
  | .DeleteProfile => e.DeleteProfileEndpoint
  | .GetAddresses => e.GetAddressesEndpoint
  | .GetAddress => e.GetAddressEndpoint
  | .PostAddress => e.PostAddressEndpoint
  | .DeleteAddress => e.DeleteAddressEndpoint

/-- The callables an endpoint set publishes: its non-nil fields. -/
def Endpoints.published (e : Endpoints) : List Ref :=
  [e.PostProfileEndpoint, e.GetProfileEndpoint, e.PutProfileEndpoint, e.PatchProfileEndpoint,
   e.DeleteProfileEndpoint, e.GetAddressesEndpoint, e.GetAddressEndpoint,
   e.PostAddressEndpoint, e.DeleteAddressEndpoint].filterMap id

section
variable {ApiClient Logger Service Endpoint Error : Type}

/-- The endpoint constructor of package `skipper` named after the operation. -/
def Deps.constructorOf (d : Deps ApiClient Service Endpoint Error) : Op → Service → Endpoint
  | .PostProfile => d.MakePostProfileEndpoint
  | .GetProfile => d.MakeGetProfileEndpoint
  | .PutProfile => d.MakePutProfileEndpoint
  | .PatchProfile => d.MakePatchProfileEndpoint
  | .DeleteProfile => d.MakeDeleteProfileEndpoint
  | .GetAddresses => d.MakeGetAddressesEndpoint
  | .GetAddress => d.MakeGetAddressEndpoint
  | .PostAddress => d.MakePostAddressEndpoint
  | .DeleteAddress => d.MakeDeleteAddressEndpoint

/-- Whether the call is `consulapi.NewClient`. -/
def Call.isApiNewClient : Call ApiClient Logger Endpoint Error → Bool
  | .apiNewClient _ => true
  | _ => false

/-- Whether the call is `consul.NewInstancer`. -/
def Call.isNewInstancer : Call ApiClient Logger Endpoint Error → Bool
  | .NewInstancer _ _ _ _ _ => true
  | _ => false

/-- Whether the call is `sd.NewEndpointer`. -/
def Call.isNewEndpointer : Call ApiClient Logger Endpoint Error → Bool
  | .NewEndpointer _ _ _ => true
  | _ => false

/-- Whether the call is `lb.NewRoundRobin`. -/
def Call.isNewRoundRobin : Call ApiClient Logger Endpoint Error → Bool
  | .NewRoundRobin _ => true
  | _ => false

/-- Whether the call is `lb.Retry`. -/
def Call.isRetry : Call ApiClient Logger Endpoint Error → Bool
  | .Retry _ _ _ => true
  | _ => false

/-- How one published callable is composed, read back from the construction trace. -/
structure Wiring (Logger Endpoint Error : Type) where
  retryMax : Nat
  retryTimeout : Nat
  balancer : Ref
  endpointer : Ref
  factory : Factory Endpoint Error
  instancer : Ref
  service : String
  tags : List String
  passingOnly : Bool

/-- Follow a callable back through the trace: it has to be an `lb.Retry` over an
`lb.NewRoundRobin` over an `sd.NewEndpointer` over a `consul.NewInstancer`. -/
def resolve (tr : List (Call ApiClient Logger Endpoint Error)) (r : Ref) :
    Option (Wiring Logger Endpoint Error) :=
  match tr[r]? with
  | some (.Retry max timeout b) =>
    match tr[b]? with
    | some (.NewRoundRobin s) =>
      match tr[s]? with
      | some (.NewEndpointer src f _) =>
        match tr[src]? with
        | some (.NewInstancer _ _ service tags passingOnly) =>
          some { retryMax := max, retryTimeout := timeout, balancer := b, endpointer := s,
                 factory := f, instancer := src, service := service, tags := tags,
                 passingOnly := passingOnly }
        | _ => none
      | _ => none
    | _ => none
  | _ => none

end

/-! ## Run-time behaviour of a published callable

The go-kit components behind a published callable (instance watcher, endpointer,
round-robin balancer, retry wrapper) are not part of this repository; their behaviour is
modelled from sections 4.1-4.4 of the specification. -/

/-- A service instance as the discovery registry reports it. -/
structure Instance where
  address : String
  service : String
  tags : List String
  passing : Bool
  deriving DecidableEq, Repr

/-- Modelled from the spec: the Instance Watcher (go-kit `consul.NewInstancer`, outside
this repository). Given a service name, a set of required tags and a passing-only flag it
yields the addresses of the instances of that service that carry all the tags and, when
the flag is set, have passing health status. -/
def watch (registry : List Instance) (service : String) (tags : List String)
    (passingOnly : Bool) : List String :=
  (registry.filter fun i =>
    i.service == service && tags.all (fun t => i.tags.contains t)
      && (!passingOnly || i.passing)).map (fun i => i.address)

/-- Errors a composed callable surfaces to its caller (spec section 7). -/
inductive CallError (Error : Type) where
  | endpoint (e : Error)
  | noEndpoints
  | maxRetries (last : Option (CallError Error))
  | timeout (last : Option (CallError Error))

/-- Mutable run-time state: the round-robin position of every balancer and the
endpoints invoked so far, oldest first. -/
structure Runtime (Endpoint : Type) where
  cursor : Ref → Nat
  dispatched : List Endpoint

section
variable {ApiClient Logger Service Endpoint Error Request Response : Type}

/-- Modelled from the spec: the Endpointer (go-kit `sd.NewEndpointer`, outside this
repository). One endpoint per reported instance, built by the factory; an instance
whose factory call fails is excluded from the usable set. -/
def endpointSet (f : Factory Endpoint Error) (instances : List String) : List Endpoint :=
  instances.filterMap fun a =>
    match (f a).err with
    | some _ => none
    | none => (f a).endpoint

/-- Modelled from the spec: round-robin selection (go-kit `lb.NewRoundRobin`, outside this
repository). Selection on the empty set fails; otherwise the position, wrapped into the
current set size, picks the endpoint. -/
def selectEndpoint (set : List Endpoint) (position : Nat) : Option Endpoint :=
  if set.length = 0 then none else set[position % set.length]?

/-- Advance the position of balancer `b` by one and record the dispatch to `ep`. -/
def Runtime.dispatch (rt : Runtime Endpoint) (b : Ref) (ep : Endpoint) : Runtime Endpoint :=
  { cursor := fun r => if r = b then rt.cursor r + 1 else rt.cursor r,
    dispatched := rt.dispatched ++ [ep] }

/-- Modelled from the spec: the Retry Wrapper (go-kit `lb.Retry`, outside this repository).
With `left` attempts remaining and `elapsed` time used of the budget `T`: select an
endpoint, invoke it, return at once on success; on failure (an invocation error or no
endpoint available) try again with a fresh selection, until the attempts are exhausted
or the elapsed time exceeds `T`. An invocation reports the time it took and its
result. -/
def attempt (invoke : Endpoint → Request → Nat × Except Error Response) (T : Nat)
    (set : List Endpoint) (b : Ref) (req : Request) :
    Nat → Nat → Option (CallError Error) → Runtime Endpoint →
      Except (CallError Error) Response × Runtime Endpoint
  | 0, _, last, rt => (.error (.maxRetries last), rt)
  | left + 1, elapsed, last, rt =>
    if T < elapsed then (.error (.timeout last), rt)
    else
      match selectEndpoint set (rt.cursor b) with
      | none => attempt invoke T set b req left elapsed (some .noEndpoints) rt
      | some ep =>
        match invoke ep req with
        | (_, .ok resp) => (.ok resp, rt.dispatch b ep)
        | (took, .error e) =>
          attempt invoke T set b req left (elapsed + took) (some (.endpoint e))
            (rt.dispatch b ep)

/-- Modelled from the spec: one call of a callable published by `New` (the go-kit
components behind it are outside this repository). The endpoint set is what the
endpointer of `r` derives from the instances its watcher currently reports, and the
call runs under the retry parameters `r` was built with. `none` when `r` is not a
callable built by `New`. -/
def invokeCallable (tr : List (Call ApiClient Logger Endpoint Error))
    (registry : List Instance) (invoke : Endpoint → Request → Nat × Except Error Response)
    (r : Ref) (req : Request) (rt : Runtime Endpoint) :
    Option (Except (CallError Error) Response × Runtime Endpoint) :=
  match resolve tr r with
  | none => none
  | some w =>
    let set := endpointSet w.factory (watch registry w.service w.tags w.passingOnly)
    some (attempt invoke w.retryTimeout set w.balancer req w.retryMax 0 none rt)

/-- Modelled from the spec: successive calls of the callable `r`, one per request, each
starting from the run-time state the previous one left. -/
def invokeAll (tr : List (Call ApiClient Logger Endpoint Error))
    (registry : List Instance) (invoke : Endpoint → Request → Nat × Except Error Response)
    (r : Ref) : List Request → Runtime Endpoint →
      Option (List (Except (CallError Error) Response) × Runtime Endpoint)
  | [], rt => some ([], rt)
  | req :: reqs, rt =>
    match invokeCallable tr registry invoke r req rt with
    | none => none
    | some (res, rt1) =>
      match invokeAll tr registry invoke r reqs rt1 with
      | none => none
      | some (rest, rt2) => some (res :: rest, rt2)

end

/-- Endpoints `ea`, `eb` taken alternately, `n` times, starting at round-robin position
`c` (an even position takes `ea`). -/
def alternate {Endpoint : Type} (ea eb : Endpoint) : Nat → Nat → List Endpoint
  | _, 0 => []
  | c, n + 1 => (if c % 2 = 0 then ea else eb) :: alternate ea eb (c + 1) n

/-! ## Sample inputs -/

/-- Sample external functions: the Consul client is refused for an empty address, the
instance "bad" has no reachable service, and every endpoint constructor tags the service
with the name of its operation. -/
def sampleDeps : Deps Nat String (String × String) String where
  NewClient := fun c => if c.Address = "" then .error "no address" else .ok 7
  MakeClientEndpoints := fun a => if a = "bad" then .error "bad instance" else .ok a
  MakePostProfileEndpoint := fun s => ("PostProfile", s)
  MakeGetProfileEndpoint := fun s => ("GetProfile", s)
  MakePutProfileEndpoint := fun s => ("PutProfile", s)
  MakePatchProfileEndpoint := fun s => ("PatchProfile", s)
  MakeDeleteProfileEndpoint := fun s => ("DeleteProfile", s)
  MakeGetAddressesEndpoint := fun s => ("GetAddresses", s)
  MakeGetAddressEndpoint := fun s => ("GetAddress", s)
  MakePostAddressEndpoint := fun s => ("PostAddress", s)
  MakeDeleteAddressEndpoint := fun s => ("DeleteAddress", s)

/-- The endpoint set a successful `New` returns. -/
def sampleEndpoints : Endpoints :=
  { PostProfileEndpoint := some 5, GetProfileEndpoint := some 8, PutProfileEndpoint := some 11,
    PatchProfileEndpoint := some 14, DeleteProfileEndpoint := some 17,
    GetAddressesEndpoint := some 20, GetAddressEndpoint := some 23,
    PostAddressEndpoint := some 26, DeleteAddressEndpoint := some 29 }

/-- Construction trace of `New` on the sample inputs. -/
def sampleTrace : List (Call Nat String (String × String) String) :=
  (runNew sampleDeps "consul:8500" "stderr").2

/-- A registry with two passing instances of "skipper" tagged "prod", a failing one, one
without the tag and one of another service. -/
def sampleRegistry : List Instance :=
  [{ address := "10.0.0.1:8080", service := "skipper", tags := ["prod"], passing := true },
   { address := "10.0.0.3:8080", service := "skipper", tags := ["prod"], passing := false },
   { address := "10.0.0.4:8080", service := "skipper", tags := ["dev"], passing := true },
   { address := "10.0.0.2:8080", service := "skipper", tags := ["blue", "prod"], passing := true },
   { address := "10.0.0.5:8080", service := "billing", tags := ["prod"], passing := true }]

/-- Every endpoint answers after one time unit, echoing its instance and the request. -/
def sampleInvoke : String × String → Nat → Nat × Except String (String × Nat) :=
  fun ep req => (1, .ok (ep.2, req))

/-- A fresh run-time state: every balancer at position 0, nothing dispatched. -/
def sampleRuntime : Runtime (String × String) :=
  { cursor := fun _ => 0, dispatched := [] }

/-- A registry with exactly two passing instances of "skipper" tagged "prod", for one of
which (`sampleDeps`) no service can be built. -/
def unreachableRegistry : List Instance :=
  [{ address := "10.0.0.1:8080", service := "skipper", tags := ["prod"], passing := true },
   { address := "bad", service := "skipper", tags := ["prod"], passing := true }]

/-- The endpoints of instance "10.0.0.1:8080" refuse every request; all others answer. -/
def refusingInvoke : String × String → Nat → Nat × Except String (String × Nat) :=
  fun ep req => if ep.2 = "10.0.0.1:8080" then (1, .error "refused") else (1, .ok (ep.2, req))

end client

/-! ## The service host (`cmd/skipper/main.go`) -/

namespace flag

/-- A string flag registered with Go `flag.String(name, value, usage)`. -/
structure Flag where
  name : String
  value : String
  usage : String
  deriving DecidableEq, Repr

/-- Value a string flag holds after Go `flag.Parse()`, as package `flag` documents it: the
value the command line supplies for the flag name, the default when it supplies none.
The command line is given as the map from flag names to supplied values. -/
def Parse (commandLine : String → Option String) (f : Flag) : String :=
  (commandLine f.name).getD f.value

end flag

namespace skipperhost

/-- Go `error` values: an error is its message. -/
structure Error where
  msg : String
  deriving DecidableEq, Repr

/-- The signals `main` subscribes to. -/
inductive Signal where
  | SIGINT | SIGTERM
  deriving DecidableEq, Repr

/-- Go `syscall.Signal.String`. -/
def Signal.String : Signal → String
  | .SIGINT => "interrupt"
  | .SIGTERM => "terminated"

/-- Go `log.Logger` values, as terms over the constructors of package `log`. -/
inductive Logger where
  | NewLogfmtLogger (w : String)
  | With (logger : Logger) (key value : String)
  deriving DecidableEq, Repr

/-- Go `skipper.Service` values, as terms over the constructors of package `skipper`. -/
inductive Service where
  | NewInmemService
  | LoggingMiddleware (logger : Logger) (next : Service)
  deriving DecidableEq, Repr

/-- Go `http.Handler` values main can refer to. -/
inductive Handler where
  | MakeHTTPHandler (s : Service) (logger : Logger)
  | DefaultServeMux
  deriving DecidableEq, Repr

/-- Observable actions of the host. -/
inductive Action where
  | Log (logger : Logger) (keyvals : List String)
  | Notify (signals : List Signal)
  | ListenAndServe (addr : String) (handler : Option Handler)
  deriving DecidableEq, Repr

/-- Go `net/http`: the handler a server started with `ListenAndServe(addr, handler)`
dispatches requests to; with a nil handler that is `http.DefaultServeMux`. -/
def served (handler : Option Handler) : Handler :=
  handler.getD .DefaultServeMux

/-- Go `fmt.Errorf("%s", v)` for a value with a `String` method. -/
def Errorf (s : String) : Error := { msg := s }

/-- Go constant `defaultPort` (main.go:16). -/
def defaultPort : String := "8080"

/-- Go constant `defaultRoutingServiceURL` (main.go:17). -/
def defaultRoutingServiceURL : String := "http://localhost:7878"

/-- Go `envString` (main.go:60-66). -/
def envString (getenv : String → String) (env fallback : String) : String :=
  let e := getenv env
  if e = "" then fallback else e

/-- What `main` sets up, in the order of its source text: the flags it defines, the values
it builds, the bodies of the two goroutines it starts, and what it does with the value
it receives from the channel `errs`. -/
structure Host where
  flags : List flag.Flag
  httpAddr : String
  logger : Logger
  s : Service
  h : Handler
  /-- First goroutine, given the signal it receives: its actions and the value it sends. -/
  signalWaiter : Signal → List Action × Error
  /-- Second goroutine, given what `ListenAndServe` returns: its actions and the value it
  sends. -/
  listener : Error → List Action × Error
  /-- Rest of `main` after the receive from `errs`. -/
  exit : Error → List Action

/-- Go `main` (main.go:20-58). The process inputs are the command line and the
environment. -/
def main (commandLine : String → Option String) (_getenv : String → String) : Host :=
  let httpAddrFlag : flag.Flag :=
    { name := "http.addr", value := ":8080", usage := "HTTP listen address" }
  let httpAddr := flag.Parse commandLine httpAddrFlag
  let logger := Logger.NewLogfmtLogger "os.Stderr"
  let logger := Logger.With logger "ts" "log.DefaultTimestampUTC"
  let logger := Logger.With logger "caller" "log.DefaultCaller"
  let s := Service.NewInmemService
  let s := Service.LoggingMiddleware logger s
  let h := Handler.MakeHTTPHandler s (Logger.With logger "component" "HTTP")
  { flags := [httpAddrFlag],
    httpAddr := httpAddr,
    logger := logger,
    s := s,
    h := h,
    signalWaiter := fun c =>
      ([.Notify [.SIGINT, .SIGTERM]], Errorf c.String),
    listener := fun ret =>
      ([.Log logger ["transport", "HTTP", "addr", httpAddr], .ListenAndServe httpAddr none],
       ret),
    exit := fun v => [.Log logger ["exit", v.msg]] }

/-- Which of the two goroutines is the first to send on the channel `errs`: the signal
waiter, with the signal it received, or the listener, with what `ListenAndServe`
returned. -/
inductive Publisher where
  | signal (c : Signal)
  | listener (ret : Error)
  deriving DecidableEq, Repr

/-- Value `main` receives from `errs` (main.go:57): the one the first publisher sent. -/
def Host.received (host : Host) : Publisher → Error
  | .signal c => (host.signalWaiter c).2
  | .listener ret => (host.listener ret).2

/-- Go `main` from the receive on (main.go:57-58): `logger.Log("exit", <-errs)`, then it
returns. -/
def Host.run (host : Host) (first : Publisher) : List Action :=
  host.exit (host.received first)

/-- Whether the action is a log entry under the key "exit". -/
def Action.isExit : Action → Bool
  | .Log _ (key :: _) => key == "exit"
  | _ => false

/-- A command line that supplies no flag. -/
def noFlags : String → Option String :=
  fun _ => none

/-- A command line that supplies `-http.addr=:9090`. -/
def addrFlag : String → Option String :=
  fun name => if name = "http.addr" then some ":9090" else none

/-- An environment that sets `PORT`. -/
def portEnv : String → String :=
  fun name => if name = "PORT" then "7000" else ""

end skipperhost

/-! ## Theorems -/

namespace client

section
variable {ApiClient Logger Service Endpoint Error Request Response : Type}

/-- The endpoint set and the construction trace of a successful `New`, computed. -/
theorem runNew_ok (d : Deps ApiClient Service Endpoint Error) (consulAddr : String)
    (logger : Logger) (apiclient : ApiClient)
    (h : d.NewClient { Address := consulAddr } = .ok apiclient) :
    runNew d consulAddr logger =
      (.ok {
        PostProfileEndpoint := some 5,
        GetProfileEndpoint := some 8,
        PutProfileEndpoint := some 11,
        PatchProfileEndpoint := some 14,
        DeleteProfileEndpoint := some 17,
        GetAddressesEndpoint := some 20,
        GetAddressEndpoint := some 23,
        PostAddressEndpoint := some 26,
        DeleteAddressEndpoint := some 29 },
       [.apiNewClient { Address := consulAddr }, .sdNewClient apiclient,
        .NewInstancer 1 logger "skipper" ["prod"] true,
       .NewEndpointer 2 (factoryFor d d.MakePostProfileEndpoint) logger, .NewRoundRobin 3,
       .Retry 3 (500 * time.Millisecond) 4,
       .NewEndpointer 2 (factoryFor d d.MakeGetProfileEndpoint) logger, .NewRoundRobin 6,
       .Retry 3 (500 * time.Millisecond) 7,
       .NewEndpointer 2 (factoryFor d d.MakePutProfileEndpoint) logger, .NewRoundRobin 9,
       .Retry 3 (500 * time.Millisecond) 10,
       .NewEndpointer 2 (factoryFor d d.MakePatchProfileEndpoint) logger, .NewRoundRobin 12,
       .Retry 3 (500 * time.Millisecond) 13,
       .NewEndpointer 2 (factoryFor d d.MakeDeleteProfileEndpoint) logger, .NewRoundRobin 15,
       .Retry 3 (500 * time.Millisecond) 16,
       .NewEndpointer 2 (factoryFor d d.MakeGetAddressesEndpoint) logger, .NewRoundRobin 18,
       .Retry 3 (500 * time.Millisecond) 19,
       .NewEndpointer 2 (factoryFor d d.MakeGetAddressEndpoint) logger, .NewRoundRobin 21,
       .Retry 3 (500 * time.Millisecond) 22,
       .NewEndpointer 2 (factoryFor d d.MakePostAddressEndpoint) logger, .NewRoundRobin 24,
       .Retry 3 (500 * time.Millisecond) 25,
       .NewEndpointer 2 (factoryFor d d.MakeDeleteAddressEndpoint) logger, .NewRoundRobin 27,
       .Retry 3 (500 * time.Millisecond) 28]) := by
  simp [runNew, New, h, call, StateT.run, bind, StateT.bind, pure, StateT.pure]

/-- The result and the construction trace of a failed `New`, computed. -/
theorem runNew_error (d : Deps ApiClient Service Endpoint Error) (consulAddr : String)
    (logger : Logger) (e : Error)
    (h : d.NewClient { Address := consulAddr } = .error e) :
    runNew d consulAddr logger = (.error e, [.apiNewClient { Address := consulAddr }]) := by
  simp [runNew, New, h, call, StateT.run, bind, StateT.bind, pure, StateT.pure]

/-- A successful `New` is one whose `consulapi.NewClient` call succeeded. -/
theorem runNew_ok_inv (d : Deps ApiClient Service Endpoint Error) (consulAddr : String)
    (logger : Logger) (eps : Endpoints) (tr : List (Call ApiClient Logger Endpoint Error))
    (h : runNew d consulAddr logger = (.ok eps, tr)) :
    ∃ apiclient, d.NewClient { Address := consulAddr } = .ok apiclient := by
  cases hc : d.NewClient { Address := consulAddr } with
  | ok a => exact ⟨a, rfl⟩
  | error e =>
    rw [runNew_error d consulAddr logger e hc] at h
    simp at h

/-- After a successful `New`, the field of each operation holds a callable that resolves
to the wiring of the block of that operation. -/
theorem wiring_of_op (d : Deps ApiClient Service Endpoint Error) (consulAddr : String)
    (logger : Logger) (eps : Endpoints) (tr : List (Call ApiClient Logger Endpoint Error))
    (h : runNew d consulAddr logger = (.ok eps, tr)) (op : Op) :
    eps.get op = some (3 * op.index + 5) ∧
    resolve tr (3 * op.index + 5) =
      some { retryMax := 3, retryTimeout := 500 * time.Millisecond,
             balancer := 3 * op.index + 4, endpointer := 3 * op.index + 3,
             factory := factoryFor d (d.constructorOf op), instancer := 2,
             service := "skipper", tags := ["prod"], passingOnly := true } := by
  obtain ⟨apiclient, hc⟩ := runNew_ok_inv d consulAddr logger eps tr h
  rw [runNew_ok d consulAddr logger apiclient hc] at h
  simp only [Prod.mk.injEq, Except.ok.injEq] at h
  obtain ⟨h1, h2⟩ := h
  subst h1 h2
  cases op <;> exact ⟨rfl, rfl⟩

/-- C1: whenever `New` succeeds, each of the nine operation fields holds a callable built
by `lb.Retry` with maximum attempt count 3 and time budget 500 ms, every published
callable is such a retry wrapper, and no `lb.Retry` call of `New` uses other
parameters. -/
theorem New_retry_parameters (d : Deps ApiClient Service Endpoint Error) (consulAddr : String)
    (logger : Logger) (eps : Endpoints) (tr : List (Call ApiClient Logger Endpoint Error))
    (h : runNew d consulAddr logger = (.ok eps, tr)) :
    (∀ op : Op, ∃ r b, eps.get op = some r ∧
      tr[r]? = some (Call.Retry 3 (500 * time.Millisecond) b)) ∧
    (∀ r ∈ eps.published, ∃ b, tr[r]? = some (Call.Retry 3 (500 * time.Millisecond) b)) ∧
    (∀ c ∈ tr, ∀ m t b, c = Call.Retry m t b → m = 3 ∧ t = 500 * time.Millisecond) ∧
    500 * time.Millisecond = 500000000 := by
  obtain ⟨apiclient, hc⟩ := runNew_ok_inv d consulAddr logger eps tr h
  rw [runNew_ok d consulAddr logger apiclient hc] at h
  simp only [Prod.mk.injEq, Except.ok.injEq] at h
  obtain ⟨h1, h2⟩ := h
  subst h1 h2
  refine ⟨?_, ?_, ?_, rfl⟩
  · intro op
    cases op <;> exact ⟨_, _, rfl, rfl⟩
  · intro r hr
    simp [Endpoints.published] at hr
    rcases hr with hr | hr | hr | hr | hr | hr | hr | hr | hr <;> subst hr <;> exact ⟨_, rfl⟩
  · intro c hc m t b hcm
    subst hcm
    simp at hc
    omega

/-- C2: whenever `New` succeeds, its trace holds exactly one `consul.NewInstancer` call,
made with service name "skipper", tags ["prod"] and passing-only true, and the
endpointer behind every published operation (indeed every `sd.NewEndpointer` call) is
built over the watcher that call returned. -/
theorem New_single_instancer (d : Deps ApiClient Service Endpoint Error) (consulAddr : String)
    (logger : Logger) (eps : Endpoints) (tr : List (Call ApiClient Logger Endpoint Error))
    (h : runNew d consulAddr logger = (.ok eps, tr)) :
    ∃ i sdclient,
      tr[i]? = some (Call.NewInstancer sdclient logger "skipper" ["prod"] true) ∧
      (tr.filter Call.isNewInstancer).length = 1 ∧
      (∀ op : Op, ∃ r w, eps.get op = some r ∧ resolve tr r = some w ∧ w.instancer = i ∧
        w.service = "skipper" ∧ w.tags = ["prod"] ∧ w.passingOnly = true) ∧
      (∀ c ∈ tr, ∀ src f l, c = Call.NewEndpointer src f l → src = i) := by
  refine ⟨2, 1, ?_, ?_, ?_, ?_⟩
  · obtain ⟨apiclient, hc⟩ := runNew_ok_inv d consulAddr logger eps tr h
    rw [runNew_ok d consulAddr logger apiclient hc] at h
    simp only [Prod.mk.injEq, Except.ok.injEq] at h
    rw [← h.2]
    rfl
  · obtain ⟨apiclient, hc⟩ := runNew_ok_inv d consulAddr logger eps tr h
    rw [runNew_ok d consulAddr logger apiclient hc] at h
    simp only [Prod.mk.injEq, Except.ok.injEq] at h
    rw [← h.2]
    rfl
  · intro op
    obtain ⟨h1, h2⟩ := wiring_of_op d consulAddr logger eps tr h op
    exact ⟨_, _, h1, h2, rfl, rfl, rfl, rfl⟩
  · obtain ⟨apiclient, hc⟩ := runNew_ok_inv d consulAddr logger eps tr h
    rw [runNew_ok d consulAddr logger apiclient hc] at h
    simp only [Prod.mk.injEq, Except.ok.injEq] at h
    rw [← h.2]
    intro c hc src f l hcm
    subst hcm
    simp at hc
    rcases hc with hc | hc | hc | hc | hc | hc | hc | hc | hc <;> exact hc.1

/-- C3: when `consulapi.NewClient` fails with `e`, `New` returns no service and exactly
`e`, and its whole trace is that single `consulapi.NewClient` call: no second attempt and
no watcher, endpointer, balancer or retry wrapper; when `consulapi.NewClient` succeeds,
`New` returns a service and no error, again after a single `consulapi.NewClient` call. -/
theorem New_discovery_failure_is_fatal (d : Deps ApiClient Service Endpoint Error)
    (consulAddr : String) (logger : Logger) :
    (∀ e, d.NewClient { Address := consulAddr } = .error e →
      runNew d consulAddr logger = (.error e, [Call.apiNewClient { Address := consulAddr }])) ∧
    (∀ apiclient, d.NewClient { Address := consulAddr } = .ok apiclient →
      ∃ eps, (runNew d consulAddr logger).1 = .ok eps ∧
        ((runNew d consulAddr logger).2.filter Call.isApiNewClient).length = 1) := by
  constructor
  · intro e he
    exact runNew_error d consulAddr logger e he
  · intro apiclient hc
    rw [runNew_ok d consulAddr logger apiclient hc]
    exact ⟨_, rfl, rfl⟩

/-- C4: `factoryFor makeEndpoint` applied to an instance address returns an error exactly
when `skipper.MakeClientEndpoints` fails for that address; on failure it returns that
error with a nil endpoint and a nil closer, on success it returns `makeEndpoint service`
with a nil closer and a nil error. -/
theorem factoryFor_result (d : Deps ApiClient Service Endpoint Error)
    (makeEndpoint : Service → Endpoint) (a : String) :
    ((factoryFor d makeEndpoint a).err.isSome = true ↔
      ∃ e, d.MakeClientEndpoints a = .error e) ∧
    (∀ e, d.MakeClientEndpoints a = .error e →
      factoryFor d makeEndpoint a = { endpoint := none, closer := none, err := some e }) ∧
    (∀ service, d.MakeClientEndpoints a = .ok service →
      factoryFor d makeEndpoint a =
        { endpoint := some (makeEndpoint service), closer := none, err := none }) := by
  refine ⟨?_, ?_, ?_⟩
  · cases hm : d.MakeClientEndpoints a <;> simp [factoryFor, hm]
  · intro e he
    simp [factoryFor, he]
  · intro service hs
    simp [factoryFor, hs]

/-- C9: whenever `New` succeeds, the callable in the field of each operation is an
`lb.Retry` over an `lb.NewRoundRobin` over an `sd.NewEndpointer` whose factory is
`factoryFor` of the constructor named after that same operation; different operations
have different callables, balancers and endpointers; `New` builds exactly nine of each;
and the factory of an operation never yields the endpoint of another constructor
unless the two constructors agree on that service. -/
theorem New_wiring_no_drift (d : Deps ApiClient Service Endpoint Error) (consulAddr : String)
    (logger : Logger) (eps : Endpoints) (tr : List (Call ApiClient Logger Endpoint Error))
    (h : runNew d consulAddr logger = (.ok eps, tr)) :
    (∀ op : Op, ∃ r w, eps.get op = some r ∧ resolve tr r = some w ∧
      w.factory = factoryFor d (d.constructorOf op)) ∧
    (∀ op op2 r r2 w w2, eps.get op = some r → eps.get op2 = some r2 →
      resolve tr r = some w → resolve tr r2 = some w2 → op ≠ op2 →
      r ≠ r2 ∧ w.balancer ≠ w2.balancer ∧ w.endpointer ≠ w2.endpointer) ∧
    ((tr.filter Call.isNewEndpointer).length = 9 ∧
      (tr.filter Call.isNewRoundRobin).length = 9 ∧
      (tr.filter Call.isRetry).length = 9) ∧
    (∀ op op2 r w a service, eps.get op = some r → resolve tr r = some w →
      d.MakeClientEndpoints a = .ok service →
      d.constructorOf op2 service ≠ d.constructorOf op service →
      (w.factory a).endpoint ≠ some (d.constructorOf op2 service)) := by
  refine ⟨?_, ?_, ?_, ?_⟩
  · intro op
    obtain ⟨h1, h2⟩ := wiring_of_op d consulAddr logger eps tr h op
    exact ⟨_, _, h1, h2, rfl⟩
  · intro op op2 r r2 w w2 hr hr2 hw hw2 hne
    obtain ⟨h1, h2⟩ := wiring_of_op d consulAddr logger eps tr h op
    obtain ⟨h3, h4⟩ := wiring_of_op d consulAddr logger eps tr h op2
    rw [h1] at hr
    rw [h3] at hr2
    cases hr
    cases hr2
    rw [h2] at hw
    rw [h4] at hw2
    cases hw
    cases hw2
    have hidx : op.index ≠ op2.index := by
      intro hi
      apply hne
      cases op <;> cases op2 <;> simp [Op.index] at hi <;> rfl
    refine ⟨?_, ?_, ?_⟩
    · intro heq
      have h5 : 3 * op.index + 5 = 3 * op2.index + 5 := heq
      exact hidx (by omega)
    · intro heq
      have h5 : 3 * op.index + 4 = 3 * op2.index + 4 := heq
      exact hidx (by omega)
    · intro heq
      have h5 : 3 * op.index + 3 = 3 * op2.index + 3 := heq
      exact hidx (by omega)
  · obtain ⟨apiclient, hc⟩ := runNew_ok_inv d consulAddr logger eps tr h
    rw [runNew_ok d consulAddr logger apiclient hc] at h
    simp only [Prod.mk.injEq, Except.ok.injEq] at h
    rw [← h.2]
    exact ⟨rfl, rfl, rfl⟩
  · intro op op2 r w a service hr hw hs hne
    obtain ⟨h1, h2⟩ := wiring_of_op d consulAddr logger eps tr h op
    rw [h1] at hr
    cases hr
    rw [h2] at hw
    cases hw
    simp only [factoryFor, hs]
    intro heq
    exact hne (Option.some.inj heq).symm

/-- C10, as the code has it: whenever `New` succeeds it has run nine wiring blocks (nine
`lb.Retry` calls) and the endpoint set publishes exactly nine callables, one for each of
the nine operations. -/
theorem New_publishes_nine (d : Deps ApiClient Service Endpoint Error) (consulAddr : String)
    (logger : Logger) (eps : Endpoints) (tr : List (Call ApiClient Logger Endpoint Error))
    (h : runNew d consulAddr logger = (.ok eps, tr)) :
    (tr.filter Call.isRetry).length = 9 ∧ eps.published.length = 9 ∧
      eps.published = Op.all.filterMap eps.get ∧ Op.all.length = 9 := by
  obtain ⟨apiclient, hc⟩ := runNew_ok_inv d consulAddr logger eps tr h
  rw [runNew_ok d consulAddr logger apiclient hc] at h
  simp only [Prod.mk.injEq, Except.ok.injEq] at h
  rw [← h.1, ← h.2]
  exact ⟨rfl, rfl, rfl, rfl⟩

/-- Round-robin selection over a two-element set alternates with the position. -/
theorem selectEndpoint_pair (ea eb : Endpoint) (c : Nat) :
    selectEndpoint [ea, eb] c = some (if c % 2 = 0 then ea else eb) := by
  unfold selectEndpoint
  have h2 : c % 2 = 0 ∨ c % 2 = 1 := by omega
  rcases h2 with h2 | h2 <;> simp [h2]

/-- One attempt that succeeds: the retry wrapper returns at once, having dispatched to
the selected endpoint only. -/
theorem attempt_success (invoke : Endpoint → Request → Nat × Except Error Response)
    (T : Nat) (ea eb : Endpoint) (b : Ref) (req : Request) (left : Nat)
    (rt : Runtime Endpoint) (took : Nat) (resp : Response)
    (hok : invoke (if rt.cursor b % 2 = 0 then ea else eb) req = (took, .ok resp)) :
    attempt invoke T [ea, eb] b req (left + 1) 0 none rt =
      (.ok resp, rt.dispatch b (if rt.cursor b % 2 = 0 then ea else eb)) := by
  simp only [attempt, Nat.not_lt_zero, if_false, selectEndpoint_pair, hok]

/-- Successive calls of a callable whose endpoint set is the pair `ea`, `eb`, both of
which answer successfully: every call succeeds after one dispatch, and the dispatches
alternate. -/
theorem invokeAll_pair (tr : List (Call ApiClient Logger Endpoint Error))
    (registry : List Instance) (invoke : Endpoint → Request → Nat × Except Error Response)
    (r : Ref) (w : Wiring Logger Endpoint Error) (ea eb : Endpoint)
    (hres : resolve tr r = some w)
    (hset : endpointSet w.factory (watch registry w.service w.tags w.passingOnly) = [ea, eb])
    (hmax : w.retryMax = 3)
    (hok : ∀ ep req, ep = ea ∨ ep = eb → ∃ took resp, invoke ep req = (took, .ok resp))
    (reqs : List Request) :
    ∀ rt : Runtime Endpoint, ∃ results rt2,
      invokeAll tr registry invoke r reqs rt = some (results, rt2) ∧
      results.length = reqs.length ∧
      (∀ res ∈ results, ∃ resp, res = Except.ok resp) ∧
      rt2.dispatched = rt.dispatched ++ alternate ea eb (rt.cursor w.balancer) reqs.length := by
  induction reqs with
  | nil =>
    intro rt
    exact ⟨[], rt, rfl, rfl, by simp, by simp [alternate]⟩
  | cons req reqs ih =>
    intro rt
    have hep : (if rt.cursor w.balancer % 2 = 0 then ea else eb) = ea ∨
        (if rt.cursor w.balancer % 2 = 0 then ea else eb) = eb := by
      by_cases hc : rt.cursor w.balancer % 2 = 0 <;> simp [hc]
    obtain ⟨took, resp, hinv⟩ := hok _ req hep
    have hone : invokeCallable tr registry invoke r req rt =
        some (.ok resp, rt.dispatch w.balancer
          (if rt.cursor w.balancer % 2 = 0 then ea else eb)) := by
      simp only [invokeCallable, hres, hset, hmax]
      rw [attempt_success invoke w.retryTimeout ea eb w.balancer req 2 rt took resp hinv]
    obtain ⟨results, rt2, hall, hlen, hres2, hdisp⟩ :=
      ih (rt.dispatch w.balancer (if rt.cursor w.balancer % 2 = 0 then ea else eb))
    refine ⟨.ok resp :: results, rt2, ?_, ?_, ?_, ?_⟩
    · simp only [invokeAll, hone, hall]
    · simp [hlen]
    · intro res hmem
      rcases List.mem_cons.mp hmem with hmem | hmem
      · exact ⟨resp, hmem⟩
      · exact hres2 res hmem
    · rw [hdisp]
      simp [Runtime.dispatch, alternate]

/-- C7, as amended: with the watcher, endpointer, balancer and retry wrapper behaving as
the specification describes, when the registry reports exactly the two passing instances
`a` and `b` for service "skipper" tagged "prod", both reachable and answering
successfully, successive calls of the GetProfile callable published by `New` all
succeed and are dispatched, one endpoint each, alternately to the GetProfile endpoints
of `a` and `b`, and to no other endpoint, from whatever round-robin position. -/
theorem GetProfile_round_robin (d : Deps ApiClient Service Endpoint Error)
    (consulAddr : String) (logger : Logger) (eps : Endpoints)
    (tr : List (Call ApiClient Logger Endpoint Error))
    (h : runNew d consulAddr logger = (.ok eps, tr))
    (registry : List Instance) (a b : String)
    (hreg : watch registry "skipper" ["prod"] true = [a, b])
    (sa sb : Service)
    (ha : d.MakeClientEndpoints a = .ok sa) (hb : d.MakeClientEndpoints b = .ok sb)
    (invoke : Endpoint → Request → Nat × Except Error Response)
    (hok : ∀ ep req, ep = d.MakeGetProfileEndpoint sa ∨ ep = d.MakeGetProfileEndpoint sb →
      ∃ took resp, invoke ep req = (took, .ok resp))
    (reqs : List Request) (rt : Runtime Endpoint) :
    ∃ r w results rt2,
      eps.GetProfileEndpoint = some r ∧ resolve tr r = some w ∧
      invokeAll tr registry invoke r reqs rt = some (results, rt2) ∧
      results.length = reqs.length ∧
      (∀ res ∈ results, ∃ resp, res = Except.ok resp) ∧
      rt2.dispatched = rt.dispatched ++
        alternate (d.MakeGetProfileEndpoint sa) (d.MakeGetProfileEndpoint sb)
          (rt.cursor w.balancer) reqs.length := by
  obtain ⟨h1, h2⟩ := wiring_of_op d consulAddr logger eps tr h .GetProfile
  have hset : endpointSet (factoryFor d (d.constructorOf .GetProfile))
      (watch registry "skipper" ["prod"] true) =
      [d.MakeGetProfileEndpoint sa, d.MakeGetProfileEndpoint sb] := by
    rw [hreg]
    simp [endpointSet, factoryFor, ha, hb, Deps.constructorOf]
  obtain ⟨results, rt2, hall, hlen, hres, hdisp⟩ :=
    invokeAll_pair tr registry invoke _ _ _ _ h2 hset rfl hok reqs rt
  exact ⟨_, _, results, rt2, h1, h2, hall, hlen, hres, hdisp⟩

end

end client

namespace skipperhost

/-- C5, what the code does: the listener goroutine of `main` calls
`http.ListenAndServe` with a nil handler, so the server dispatches requests to
`http.DefaultServeMux` and not to the handler `h` that `main` built from the
logging-decorated in-memory service. -/
theorem main_serves_default_mux (commandLine : String → Option String)
    (getenv : String → String) (ret : Error) :
    ((main commandLine getenv).listener ret).1 =
      [Action.Log (main commandLine getenv).logger
          ["transport", "HTTP", "addr", (main commandLine getenv).httpAddr],
       Action.ListenAndServe (main commandLine getenv).httpAddr none] ∧
    (main commandLine getenv).h =
      Handler.MakeHTTPHandler
        (Service.LoggingMiddleware (main commandLine getenv).logger Service.NewInmemService)
        (Logger.With (main commandLine getenv).logger "component" "HTTP") ∧
    served none = Handler.DefaultServeMux ∧
    served none ≠ (main commandLine getenv).h := by
  refine ⟨rfl, rfl, rfl, ?_⟩
  simp [served, main]

/-- C6: `main` defines exactly one flag, `http.addr` with default ":8080"; the address
given to `http.ListenAndServe` is the parsed value of that flag, which is the value the
command line supplies for `http.addr` and ":8080" when it supplies none; and the
environment has no influence on it. -/
theorem main_listen_address (commandLine : String → Option String)
    (getenv : String → String) (ret : Error) :
    (main commandLine getenv).flags =
      [{ name := "http.addr", value := ":8080", usage := "HTTP listen address" }] ∧
    (∀ handler addr, Action.ListenAndServe addr handler ∈
        ((main commandLine getenv).listener ret).1 →
      addr = (main commandLine getenv).httpAddr) ∧
    (∃ handler, Action.ListenAndServe (main commandLine getenv).httpAddr handler ∈
        ((main commandLine getenv).listener ret).1) ∧
    (main commandLine getenv).httpAddr = (commandLine "http.addr").getD ":8080" ∧
    (commandLine "http.addr" = none → (main commandLine getenv).httpAddr = ":8080") ∧
    (∀ v, commandLine "http.addr" = some v → (main commandLine getenv).httpAddr = v) ∧
    (∀ getenv2 : String → String,
      (main commandLine getenv2).listener ret = (main commandLine getenv).listener ret) := by
  refine ⟨rfl, ?_, ⟨none, ?_⟩, rfl, ?_, ?_, fun _ => rfl⟩
  · intro handler addr hmem
    simp [main] at hmem
    exact hmem.1
  · simp [main]
  · intro hnone
    simp [main, flag.Parse, hnone]
  · intro v hv
    simp [main, flag.Parse, hv]

/-- C8: `main` starts a signal waiter subscribed to SIGINT and SIGTERM and the HTTP
listener, both sending to the one channel `errs`; whichever of the two publishes first,
`main` logs exactly one "exit" entry, whose value is that first result, and returns: an
error whose message is the name of the signal when the signal waiter published first,
the error `ListenAndServe` returned when the listener published first. Neither
goroutine writes an "exit" entry of its own. -/
theorem main_exits_on_first_result (commandLine : String → Option String)
    (getenv : String → String) (first : Publisher) :
    (∀ c, ((main commandLine getenv).signalWaiter c).1 =
      [Action.Notify [Signal.SIGINT, Signal.SIGTERM]]) ∧
    (∀ ret, Action.ListenAndServe (main commandLine getenv).httpAddr none ∈
      ((main commandLine getenv).listener ret).1) ∧
    (main commandLine getenv).run first =
      [Action.Log (main commandLine getenv).logger
        ["exit", ((main commandLine getenv).received first).msg]] ∧
    (((main commandLine getenv).run first).filter Action.isExit).length = 1 ∧
    (∀ c ret, (((main commandLine getenv).signalWaiter c).1 ++
      ((main commandLine getenv).listener ret).1).filter Action.isExit = []) ∧
    (∀ c, (main commandLine getenv).received (.signal c) = { msg := c.String }) ∧
    (∀ ret, (main commandLine getenv).received (.listener ret) = ret) ∧
    Signal.SIGINT.String = "interrupt" ∧ Signal.SIGTERM.String = "terminated" := by
  refine ⟨fun _ => rfl, ?_, rfl, ?_, ?_, fun _ => rfl, fun _ => rfl, rfl, rfl⟩
  · intro ret
    simp [main]
  · simp [Host.run, main, Action.isExit]
  · intro c ret
    simp [main, Action.isExit]

end skipperhost

/-! ## The theorems at sample inputs -/

namespace client

/-- The sample Consul address is accepted, and `New` returns the sample endpoint set. -/
theorem sample_run :
    runNew sampleDeps "consul:8500" "stderr" = (.ok sampleEndpoints, sampleTrace) := by
  rfl

/-- C1 at the sample inputs. -/
theorem New_retry_parameters_witness :
    runNew sampleDeps "consul:8500" "stderr" = (.ok sampleEndpoints, sampleTrace) ∧
    (∀ op : Op, ∃ r b, sampleEndpoints.get op = some r ∧
      sampleTrace[r]? = some (Call.Retry 3 (500 * time.Millisecond) b)) :=
  ⟨sample_run, (New_retry_parameters sampleDeps "consul:8500" "stderr" sampleEndpoints
    sampleTrace sample_run).1⟩

/-- C2 at the sample inputs. -/
theorem New_single_instancer_witness :
    runNew sampleDeps "consul:8500" "stderr" = (.ok sampleEndpoints, sampleTrace) ∧
    ∃ (i : Nat) (sdclient : Ref),
      sampleTrace[i]? = some (Call.NewInstancer sdclient "stderr" "skipper" ["prod"] true) ∧
      (sampleTrace.filter Call.isNewInstancer).length = 1 :=
  ⟨sample_run,
   (New_single_instancer sampleDeps "consul:8500" "stderr" sampleEndpoints sampleTrace
      sample_run).imp fun _ hi => hi.imp fun _ hs => ⟨hs.1, hs.2.1⟩⟩

/-- C3 at the sample inputs: the empty address is refused, "consul:8500" is accepted. -/
theorem New_discovery_failure_is_fatal_witness :
    runNew sampleDeps "" "stderr" =
      (.error "no address", [Call.apiNewClient { Address := "" }]) ∧
    ∃ eps, (runNew sampleDeps "consul:8500" "stderr").1 = .ok eps ∧
      ((runNew sampleDeps "consul:8500" "stderr").2.filter Call.isApiNewClient).length = 1 :=
  ⟨(New_discovery_failure_is_fatal sampleDeps "" "stderr").1 "no address" rfl,
   (New_discovery_failure_is_fatal sampleDeps "consul:8500" "stderr").2 7 rfl⟩

/-- C4 at the sample inputs: the instance "bad" fails, "10.0.0.1:8080" succeeds. -/
theorem factoryFor_result_witness :
    factoryFor sampleDeps sampleDeps.MakeGetAddressEndpoint "bad" =
      { endpoint := none, closer := none, err := some "bad instance" } ∧
    factoryFor sampleDeps sampleDeps.MakeGetAddressEndpoint "10.0.0.1:8080" =
      { endpoint := some ("GetAddress", "10.0.0.1:8080"), closer := none, err := none } :=
  ⟨(factoryFor_result sampleDeps sampleDeps.MakeGetAddressEndpoint "bad").2.1
      "bad instance" rfl,
   (factoryFor_result sampleDeps sampleDeps.MakeGetAddressEndpoint "10.0.0.1:8080").2.2
      "10.0.0.1:8080" rfl⟩

/-- C7 as amended, at the sample inputs: three calls go to the first, the second and again the first
of the two passing "prod" instances of "skipper". -/
theorem GetProfile_round_robin_witness :
    watch sampleRegistry "skipper" ["prod"] true = ["10.0.0.1:8080", "10.0.0.2:8080"] ∧
    ∃ results rt2,
      invokeAll sampleTrace sampleRegistry sampleInvoke 8 [10, 20, 30] sampleRuntime =
        some (results, rt2) ∧
      rt2.dispatched = [("GetProfile", "10.0.0.1:8080"), ("GetProfile", "10.0.0.2:8080"),
        ("GetProfile", "10.0.0.1:8080")] := by
  refine ⟨rfl, ?_⟩
  obtain ⟨r, w, results, rt2, hr, _, hall, _, _, hdisp⟩ :=
    GetProfile_round_robin sampleDeps "consul:8500" "stderr" sampleEndpoints sampleTrace
      sample_run sampleRegistry "10.0.0.1:8080" "10.0.0.2:8080" rfl
      "10.0.0.1:8080" "10.0.0.2:8080" rfl rfl sampleInvoke
      (fun ep req _ => ⟨1, (ep.2, req), rfl⟩) [10, 20, 30] sampleRuntime
  cases hr
  refine ⟨results, rt2, hall, ?_⟩
  rw [hdisp]
  simp [alternate, sampleRuntime, sampleDeps]

/-- C7 as stated fails at sample inputs. With exactly two passing "prod" instances of
"skipper" of which one is unreachable, three successful GetProfile calls all go to the
endpoint of the other instance. With both reachable but one refusing every request, each
of two successful calls is dispatched to both instances, not to one of them in turn. -/
theorem GetProfile_round_robin_counterexample :
    (watch unreachableRegistry "skipper" ["prod"] true = ["10.0.0.1:8080", "bad"] ∧
      (invokeAll sampleTrace unreachableRegistry sampleInvoke 8 [10, 20, 30]
          sampleRuntime).map (fun out => (out.1, out.2.dispatched)) =
        some ([.ok ("10.0.0.1:8080", 10), .ok ("10.0.0.1:8080", 20),
               .ok ("10.0.0.1:8080", 30)],
              [("GetProfile", "10.0.0.1:8080"), ("GetProfile", "10.0.0.1:8080"),
               ("GetProfile", "10.0.0.1:8080")]) ∧
      [("GetProfile", "10.0.0.1:8080"), ("GetProfile", "10.0.0.1:8080"),
        ("GetProfile", "10.0.0.1:8080")] ≠
        alternate ("GetProfile", "10.0.0.1:8080") ("GetProfile", "bad") 0 3) ∧
    (watch sampleRegistry "skipper" ["prod"] true = ["10.0.0.1:8080", "10.0.0.2:8080"] ∧
      (invokeAll sampleTrace sampleRegistry refusingInvoke 8 [10, 20]
          sampleRuntime).map (fun out => (out.1, out.2.dispatched)) =
        some ([.ok ("10.0.0.2:8080", 10), .ok ("10.0.0.2:8080", 20)],
              [("GetProfile", "10.0.0.1:8080"), ("GetProfile", "10.0.0.2:8080"),
               ("GetProfile", "10.0.0.1:8080"), ("GetProfile", "10.0.0.2:8080")]) ∧
      [("GetProfile", "10.0.0.1:8080"), ("GetProfile", "10.0.0.2:8080"),
        ("GetProfile", "10.0.0.1:8080"), ("GetProfile", "10.0.0.2:8080")] ≠
        alternate ("GetProfile", "10.0.0.1:8080") ("GetProfile", "10.0.0.2:8080") 0 2) := by
  refine ⟨⟨rfl, rfl, ?_⟩, ⟨rfl, rfl, ?_⟩⟩
  · simp [alternate]
  · simp [alternate]

/-- C9 at the sample inputs: the GetAddress field is wired to `MakeGetAddressEndpoint`. -/
theorem New_wiring_no_drift_witness :
    runNew sampleDeps "consul:8500" "stderr" = (.ok sampleEndpoints, sampleTrace) ∧
    ∃ r w, sampleEndpoints.get .GetAddress = some r ∧ resolve sampleTrace r = some w ∧
      w.factory = factoryFor sampleDeps sampleDeps.MakeGetAddressEndpoint :=
  ⟨sample_run, (New_wiring_no_drift sampleDeps "consul:8500" "stderr" sampleEndpoints
    sampleTrace sample_run).1 .GetAddress⟩

/-- C10 as stated fails at the sample inputs: the successful `New` has run nine wiring
blocks and publishes nine callables, not ten. -/
theorem New_ten_operations_counterexample :
    runNew sampleDeps "consul:8500" "stderr" = (.ok sampleEndpoints, sampleTrace) ∧
    ¬ ((sampleTrace.filter Call.isRetry).length = 10) ∧
    ¬ (sampleEndpoints.published.length = 10) := by
  refine ⟨rfl, ?_, ?_⟩
  · show ¬ (9 = 10)
    decide
  · decide

/-- C10 as amended, at the sample inputs. -/
theorem New_publishes_nine_witness :
    runNew sampleDeps "consul:8500" "stderr" = (.ok sampleEndpoints, sampleTrace) ∧
    (sampleTrace.filter Call.isRetry).length = 9 ∧ sampleEndpoints.published.length = 9 :=
  ⟨sample_run,
   (New_publishes_nine sampleDeps "consul:8500" "stderr" sampleEndpoints sampleTrace
      sample_run).1,
   (New_publishes_nine sampleDeps "consul:8500" "stderr" sampleEndpoints sampleTrace
      sample_run).2.1⟩

end client

namespace skipperhost

/-- C6 at sample inputs: without the flag the host listens on ":8080", with
`-http.addr=:9090` on ":9090", whatever the environment. -/
theorem main_listen_address_witness :
    (main noFlags portEnv).httpAddr = ":8080" ∧ (main addrFlag portEnv).httpAddr = ":9090" :=
  ⟨(main_listen_address noFlags portEnv { msg := "closed" }).2.2.2.2.1 rfl,
   (main_listen_address addrFlag portEnv { msg := "closed" }).2.2.2.2.2.1 ":9090" rfl⟩

end skipperhost
